import Mathlib

/-!
Verification of the routing core of the polyphona API server.

The repository source under verification is `src/api/factory.py`, whose
single function `create_api` wires four resource classes onto six URL
path templates of a falcon `API` object and attaches a permissive CORS
middleware.  The resource classes, the database gateway and the falcon
router itself are collaborators that are not part of the source tree;
where a claim depends on their behaviour, the corresponding definition
is modelled from the specification (its doc comment says so explicitly).
-/

namespace Polyphona

/-! ## Data model

Modelled from the spec (section 3): the entity records held behind the
database gateway.  `src/api/db.py` is not under `src/`, so the record
shapes follow the spec's data-model section. -/

/-- Modelled from the spec: a User record, `username` is the unique key
(`src/api/db.py` and the resource classes are not under `src/`). -/
structure User where
  username : String
  deriving DecidableEq, Repr

/-- Modelled from the spec: a Song record with a gateway-assigned `id`,
an `owner` lookup key referencing a User by username, and a payload. -/
structure Song where
  id : Nat
  owner : String
  title : String
  deriving DecidableEq, Repr

/-- Modelled from the spec: a Token record, an opaque unique `token`
string together with the subject it authorizes. -/
structure Token where
  token : String
  subject : String
  deriving DecidableEq, Repr

/-- Modelled from the spec: the state behind the Database Gateway —
the three entity collections. -/
structure Database where
  users : List User
  songs : List Song
  tokens : List Token
  deriving DecidableEq, Repr

/-! ## Database gateway operations

Modelled from the spec (section 4.1): the gateway contract consumed by
the resources.  A `none` result is the gateway's NotFound. -/

/-- Modelled from the spec: `find_user(username) -> User | NotFound`. -/
def find_user (db : Database) (username : String) : Option User :=
  db.users.find? (fun u => u.username == username)

/-- Whether `username` is present in the user collection. -/
def user_exists (db : Database) (username : String) : Bool :=
  db.users.any (fun u => u.username == username)

/-- Modelled from the spec: `find_songs_by_owner(username)` returns the
owner's songs (possibly the empty sequence) and NotFound when the owner
itself does not exist — the policy the spec fixes in sections 4.3 and 9. -/
def find_songs_by_owner (db : Database) (username : String) : Option (List Song) :=
  if user_exists db username then
    some (db.songs.filter (fun s => s.owner == username))
  else
    none

/-- Modelled from the spec: `find_token(token) -> Token | NotFound`. -/
def find_token (db : Database) (t : String) : Option Token :=
  db.tokens.find? (fun tk => tk.token == t)

/-- The token values present in the collection. -/
def token_values (db : Database) : List String :=
  db.tokens.map Token.token

/-- Modelled from the spec: `create_token(fields)` stores a record whose
`token` field is a freshly generated opaque string (the generator is the
gateway's concern, so the generated value is a parameter here) and
returns the created record alongside the updated state. -/
def create_token (db : Database) (subject : String) (generated : String) :
    Token × Database :=
  let tk : Token := ⟨generated, subject⟩
  (tk, { db with tokens := db.tokens ++ [tk] })

/-! ## Resource handlers needed by the claims

Modelled from the spec (sections 4.3 and 4.5): the GET handlers of the
User-Songs and Token resources, since `src/api/resources/` is not under
`src/`.  `Except Nat` carries the failure HTTP status. -/

/-- Modelled from the spec: `GET /users/{username}/songs` — resolves the
username through the gateway, a not-found failure when absent, otherwise
the sequence of the user's songs. -/
def on_get_user_songs (db : Database) (username : String) : Except Nat (List Song) :=
  match find_songs_by_owner db username with
  | none => .error 404
  | some songs => .ok songs

/-- Modelled from the spec: `GET /tokens/{token}` — resolves the opaque
token string to its record, a not-found failure when unknown. -/
def on_get_token (db : Database) (t : String) : Except Nat Token :=
  match find_token db t with
  | none => .error 404
  | some tk => .ok tk

/-! ## The routing table built by `create_api` (from `src/api/factory.py`)

A resource instance is a constructed resource object: its class, the
database object it was constructed with (represented by the value `db`
that `create_api` receives), and an allocation identity `iid` standing
for the Python object identity — each constructor call in the body of
`create_api` allocates a distinct one. -/

/-- The four resource classes imported by `src/api/factory.py`. -/
inductive ResourceClass where
  | UserResource
  | UserSongsResource
  | SongResource
  | TokenResource
  deriving DecidableEq, Repr

/-- A constructed resource object: its class, the database object passed
to its constructor, and its object identity. -/
structure ResourceInstance (α : Type) where
  rclass : ResourceClass
  db : α
  iid : Nat
  deriving DecidableEq, Repr

/-- The CORS configuration built in `create_api`:
`CORS(allow_all_origins=True, allow_all_methods=True, allow_all_headers=True)`. -/
structure CorsConfig where
  allowAllOrigins : Bool
  allowAllMethods : Bool
  allowAllHeaders : Bool
  deriving DecidableEq, Repr

/-- The API object assembled by `create_api`: the middleware list passed
to the falcon `API` constructor and the routes added by `add_route`, in
order. -/
structure Api (α : Type) where
  middleware : List CorsConfig
  routes : List (String × ResourceInstance α)
  deriving DecidableEq

/-- Transcription of `create_api` from `src/api/factory.py`.  `db` is the
database object handed in; `base` is the allocator state on entry, so the
n-th constructor call executed in the body yields object identity
`base + n`, mirroring that every `XResource(db)` call in Python creates a
distinct object.  The body executes, in order:
`UserResource(db)`, `UserSongsResource(db)`, `SongResource(db)` (bound to
`song_resource` and added to both song routes), `TokenResource(db)`
(bound to `token_resource`), and then a second `TokenResource(db)` inside
the `add_route("/tokens/(token)", ...)` call, before `token_resource` is
added on `"/tokens/"`. -/
def create_api (db : α) (base : Nat) : Api α :=
  let cors : CorsConfig :=
    { allowAllOrigins := true, allowAllMethods := true, allowAllHeaders := true }
  let user_resource : ResourceInstance α := ⟨.UserResource, db, base⟩
  let user_songs_resource : ResourceInstance α := ⟨.UserSongsResource, db, base + 1⟩
  let song_resource : ResourceInstance α := ⟨.SongResource, db, base + 2⟩
  let token_resource : ResourceInstance α := ⟨.TokenResource, db, base + 3⟩
  let token_resource_item : ResourceInstance α := ⟨.TokenResource, db, base + 4⟩
  { middleware := [cors]
    routes :=
      [ ("/users/", user_resource)
      , ("/users/{username}/songs", user_songs_resource)
      , ("/songs/{pk}", song_resource)
      , ("/songs/", song_resource)
      , ("/tokens/{token}", token_resource_item)
      , ("/tokens/", token_resource) ] }

/-! ## Dispatch

Modelled from the spec (section 4.6): the falcon router is not part of
the repository, so dispatch is modelled as the spec describes it — exact
path-template matching where a `(name)` template segment captures one
non-empty path segment, literal segments match exactly, unmatched paths
fail with not-found and matched paths with an unsupported method fail
with method-not-allowed. -/

/-- The opening brace character. -/
def lbrace : Char := Char.ofNat 123

/-- The closing brace character. -/
def rbrace : Char := Char.ofNat 125

/-- Prepend a character onto the first segment of a segment list. -/
def consSeg (c : Char) : List String → List String
  | [] => [String.mk [c]]
  | s :: ss => String.mk (c :: s.data) :: ss

/-- Split a character list into path segments at every slash. -/
def segsOfChars : List Char → List String
  | [] => [""]
  | c :: cs => if c = '/' then "" :: segsOfChars cs else consSeg c (segsOfChars cs)

/-- The segments of a URL path, split at every slash. -/
def pathSegments (p : String) : List String :=
  segsOfChars p.data

/-- Whether a template segment is a named parameter, i.e. brace-wrapped. -/
def isParamSeg (s : String) : Bool :=
  match s.data with
  | [] => false
  | c :: cs => c = lbrace && cs.getLast? = some rbrace

/-- The name of a parameter segment (the text between the braces). -/
def paramName (s : String) : String :=
  String.mk (s.data.drop 1).dropLast

/-- Match template segments against path segments: a parameter segment
captures one non-empty path segment under its name, a literal segment
matches only itself. -/
def matchSegs : List String → List String → Option (List (String × String))
  | [], [] => some []
  | t :: ts, p :: ps =>
    if isParamSeg t then
      if p = "" then none
      else (matchSegs ts ps).map (fun bs => (paramName t, p) :: bs)
    else if t = p then matchSegs ts ps
    else none
  | _, _ => none

/-- Match one template against one path. -/
def matchTemplate (template path : String) : Option (List (String × String)) :=
  matchSegs (pathSegments template) (pathSegments path)

/-- Find the first registered route whose template matches the path,
together with the extracted parameters. -/
def findRoute (routes : List (String × ResourceInstance α)) (path : String) :
    Option (String × ResourceInstance α × List (String × String)) :=
  match routes with
  | [] => none
  | (t, r) :: rest =>
    match matchTemplate t path with
    | some ps => some (t, r, ps)
    | none => findRoute rest path

/-- HTTP methods. -/
inductive Method where
  | get
  | post
  | put
  | delete
  | patch
  | options
  | head
  deriving DecidableEq, Repr

/-- Modelled from the spec: the methods each routed path template
supports (section 6's interface table); the resource classes defining
the corresponding responders are not under `src/`. -/
def allowedMethods : String → List Method
  | "/users/" => [.post, .get]
  | "/users/{username}/songs" => [.get]
  | "/songs/" => [.get, .post]
  | "/songs/{pk}" => [.get]
  | "/tokens/" => [.get, .post]
  | "/tokens/{token}" => [.get]
  | _ => []

/-- The outcome of routing a request: a matched resource instance with
extracted parameters, or a routing-level failure. -/
inductive Outcome (α : Type) where
  | matched (template : String) (r : ResourceInstance α) (params : List (String × String))
  | notFound
  | methodNotAllowed
  deriving DecidableEq

/-- Route a request: unmatched paths yield not-found; a matched template
whose bound resource does not support the method yields
method-not-allowed; otherwise the bound resource instance is selected
with the extracted parameters. -/
def dispatch (api : Api α) (m : Method) (path : String) : Outcome α :=
  match findRoute api.routes path with
  | none => .notFound
  | some (t, r, ps) => if m ∈ allowedMethods t then .matched t r ps else .methodNotAllowed

/-! ## Responses and the CORS middleware

Modelled from the spec (sections 4.6 and 9): `falcon_cors` is not part
of the repository; with all three allow-all flags set it decorates every
response, after the handler (or the routing-level failure) has produced
it, with the unrestricted cross-origin headers. -/

/-- An inbound request: method, path, and the request's Origin header. -/
structure Request where
  method : Method
  path : String
  origin : String
  deriving DecidableEq, Repr

/-- An outbound response: status code and headers. -/
structure Response where
  status : Nat
  headers : List (String × String)
  deriving DecidableEq, Repr

/-- The unrestricted cross-origin header set. -/
def corsHeaders : List (String × String) :=
  [ ("Access-Control-Allow-Origin", "*")
  , ("Access-Control-Allow-Methods", "*")
  , ("Access-Control-Allow-Headers", "*") ]

/-- Modelled from the spec: the response-decoration step of the CORS
middleware — each allow-all flag contributes its unrestricted header. -/
def corsDecorate (c : CorsConfig) (resp : Response) : Response :=
  { resp with
    headers := resp.headers
      ++ (if c.allowAllOrigins then [("Access-Control-Allow-Origin", "*")] else [])
      ++ (if c.allowAllMethods then [("Access-Control-Allow-Methods", "*")] else [])
      ++ (if c.allowAllHeaders then [("Access-Control-Allow-Headers", "*")] else []) }

/-- Run every middleware entry of the API, in order, over a response. -/
def runMiddleware (ms : List CorsConfig) (resp : Response) : Response :=
  ms.foldl (fun r c => corsDecorate c r) resp

/-- Handle one request: route it, let the matched resource's handler (a
parameter, since the resource classes are not under `src/`) produce the
base response — or let the routing layer produce the 404/405 failure —
then apply the process-wide middleware to the result. -/
def handle (api : Api α)
    (handler : ResourceInstance α → List (String × String) → Response)
    (req : Request) : Response :=
  let base :=
    match dispatch api req.method req.path with
    | .notFound => ⟨404, []⟩
    | .methodNotAllowed => ⟨405, []⟩
    | .matched _ r ps => handler r ps
  runMiddleware api.middleware base

/-! ## Traced construction

To settle the frame property of `create_api`, the transcription is
repeated in a state monad over the database paired with a log of the
gateway operations performed: every gateway call in the body would
thread the state and append its name to the log.  The body of
`create_api` in `src/api/factory.py` contains no gateway call — only
resource-constructor calls, which store the database object without
touching it — so the traced transcription below invokes none of the
traced gateway operations. -/

/-- A traced database: the gateway state paired with the log of gateway
operations performed so far. -/
abbrev TracedDb := Database × List String

/-- The state monad in which the traced transcription of `create_api`
runs. -/
abbrev DbM (A : Type) := StateM TracedDb A

/-- Traced `find_user`: performs the lookup and logs the call.  (Defined
so that a gateway call occurring in a traced transcription is visible in
the log; `create_api` makes none.) -/
def find_user_m (u : String) : DbM (Option User) := fun s =>
  (find_user s.1 u, (s.1, s.2 ++ ["find_user"]))

/-- Traced `find_songs_by_owner`: performs the lookup and logs the call. -/
def find_songs_by_owner_m (u : String) : DbM (Option (List Song)) := fun s =>
  (find_songs_by_owner s.1 u, (s.1, s.2 ++ ["find_songs_by_owner"]))

/-- Traced `find_token`: performs the lookup and logs the call. -/
def find_token_m (t : String) : DbM (Option Token) := fun s =>
  (find_token s.1 t, (s.1, s.2 ++ ["find_token"]))

/-- Traced `create_token`: performs the insert, updating the state, and
logs the call. -/
def create_token_m (subject generated : String) : DbM Token := fun s =>
  let r := create_token s.1 subject generated
  (r.1, (r.2, s.2 ++ ["create_token"]))

/-- A traced resource-constructor call `XResource(db)`: allocates the
instance; it stores the database object and performs no gateway
operation. -/
def mk_resource_m (c : ResourceClass) (dbid : Nat) (iid : Nat) :
    DbM (ResourceInstance Nat) :=
  pure ⟨c, dbid, iid⟩

/-- The traced transcription of `create_api` from `src/api/factory.py`,
line by line: the CORS configuration, the API object, and the five
resource-constructor calls in source order; no traced gateway operation
occurs in the body. -/
def create_api_m (dbid : Nat) (base : Nat) : DbM (Api Nat) := do
  let cors : CorsConfig :=
    { allowAllOrigins := true, allowAllMethods := true, allowAllHeaders := true }
  let user_resource ← mk_resource_m .UserResource dbid base
  let user_songs_resource ← mk_resource_m .UserSongsResource dbid (base + 1)
  let song_resource ← mk_resource_m .SongResource dbid (base + 2)
  let token_resource ← mk_resource_m .TokenResource dbid (base + 3)
  let token_resource_item ← mk_resource_m .TokenResource dbid (base + 4)
  pure
    { middleware := [cors]
      routes :=
        [ ("/users/", user_resource)
        , ("/users/{username}/songs", user_songs_resource)
        , ("/songs/{pk}", song_resource)
        , ("/songs/", song_resource)
        , ("/tokens/{token}", token_resource_item)
        , ("/tokens/", token_resource) ] }

/-! ## Helper lemmas shared by the claim theorems -/

/-- Running the middleware chain never changes the response status. -/
theorem runMiddleware_status (ms : List CorsConfig) (r : Response) :
    (runMiddleware ms r).status = r.status := by
  induction ms generalizing r with
  | nil => rfl
  | cons c ms ih => simpa [runMiddleware, corsDecorate] using ih (corsDecorate c r)

/-- A parameter template segment captures any non-empty path segment. -/
theorem matchSegs_param (t p : String) (ts ps : List String)
    (hp : isParamSeg t = true) (hne : ¬ p = "") :
    matchSegs (t :: ts) (p :: ps)
      = (matchSegs ts ps).map (fun bs => (paramName t, p) :: bs) := by
  simp [matchSegs, hp, hne]

/-- A literal template segment matches itself and drops out. -/
theorem matchSegs_lit (t : String) (ts ps : List String)
    (hp : isParamSeg t = false) :
    matchSegs (t :: ts) (t :: ps) = matchSegs ts ps := by
  simp [matchSegs, hp]

/-- A literal template segment rejects any other path segment. -/
theorem matchSegs_lit_ne (t p : String) (ts ps : List String)
    (hp : isParamSeg t = false) (hne : ¬ t = p) :
    matchSegs (t :: ts) (p :: ps) = none := by
  simp [matchSegs, hp, hne]

/-- The middleware chain of the API built by `create_api` appends exactly
the unrestricted cross-origin headers to any response. -/
theorem runMiddleware_cors (db : α) (base : Nat) (r : Response) :
    runMiddleware (create_api db base).middleware r
      = { r with headers := r.headers ++ corsHeaders } := by
  simp [runMiddleware, create_api, corsDecorate, corsHeaders]

/-! ## The claims -/

/-- C1: evaluation at the failing input — the two token routes of the API
built by `create_api`.  The two song routes are indeed bound to one and
the same `SongResource` instance, but `create_api` binds
`/tokens/{token}` to a freshly constructed `TokenResource(db)` rather
than to the `token_resource` it binds to `/tokens/`: the two token
routes hold two distinct instances of the same class, constructed with
the same database, refuting the claim that one and the same
`TokenResource` instance serves both. -/
theorem C1_token_routes_two_instances :
    ((create_api 0 0).routes.lookup "/songs/"
      = (create_api 0 0).routes.lookup "/songs/{pk}")
    ∧ (create_api 0 0).routes.lookup "/tokens/"
      ≠ (create_api 0 0).routes.lookup "/tokens/{token}"
    ∧ ((create_api 0 0).routes.lookup "/tokens/").map ResourceInstance.rclass
      = ((create_api 0 0).routes.lookup "/tokens/{token}").map ResourceInstance.rclass
    ∧ ((create_api 0 0).routes.lookup "/tokens/").map ResourceInstance.db
      = ((create_api 0 0).routes.lookup "/tokens/{token}").map ResourceInstance.db := by
  decide

/-- C2: every response of the API built by `create_api` carries the
permissive cross-origin policy: the middleware list is the single
process-wide all-permissive CORS entry; whatever the matched resource's
handler produces (and also on the routing-level failures), the response
ends with the unrestricted cross-origin headers; and the response does
not depend on the request's origin.  Routes carry no policy of their
own, so nothing overrides this per route. -/
theorem C2_cors_on_every_response (db : α) (base : Nat)
    (handler : ResourceInstance α → List (String × String) → Response)
    (req : Request) :
    (create_api db base).middleware = [⟨true, true, true⟩]
    ∧ (∃ pre, (handle (create_api db base) handler req).headers = pre ++ corsHeaders)
    ∧ (∀ o : String,
        handle (create_api db base) handler { req with origin := o }
          = handle (create_api db base) handler req) := by
  refine ⟨rfl, ?_, fun o => rfl⟩
  unfold handle
  rw [runMiddleware_cors]
  exact ⟨_, rfl⟩

/-- C3: the API built by `create_api` registers exactly the six path
templates in source order with the stated resource classes and no other,
and dispatch matches a request path against these templates exactly,
extracting the named parameters `username`, `pk` and `token` and handing
them to the matched resource instance. -/
theorem C3_routing_table_and_dispatch (db : α) (base : Nat) :
    ((create_api db base).routes.map Prod.fst
      = [ "/users/", "/users/{username}/songs", "/songs/{pk}", "/songs/",
          "/tokens/{token}", "/tokens/" ])
    ∧ ((create_api db base).routes.map (fun r => (r.1, r.2.rclass))
      = [ ("/users/", .UserResource)
        , ("/users/{username}/songs", .UserSongsResource)
        , ("/songs/{pk}", .SongResource)
        , ("/songs/", .SongResource)
        , ("/tokens/{token}", .TokenResource)
        , ("/tokens/", .TokenResource) ])
    ∧ (∀ path u, ¬ u = "" → pathSegments path = ["", "users", u, "songs"] →
        dispatch (create_api db base) .get path
          = .matched "/users/{username}/songs" ⟨.UserSongsResource, db, base + 1⟩
              [("username", u)])
    ∧ (∀ path p, ¬ p = "" → pathSegments path = ["", "songs", p] →
        dispatch (create_api db base) .get path
          = .matched "/songs/{pk}" ⟨.SongResource, db, base + 2⟩ [("pk", p)])
    ∧ (∀ path t, ¬ t = "" → pathSegments path = ["", "tokens", t] →
        dispatch (create_api db base) .get path
          = .matched "/tokens/{token}" ⟨.TokenResource, db, base + 4⟩ [("token", t)]) := by
  refine ⟨rfl, rfl, ?_, ?_, ?_⟩
  · intro path u hu hseg
    have h0 : matchTemplate "/users/" path = none := by
      unfold matchTemplate
      rw [hseg, show pathSegments "/users/" = ["", "users", ""] from rfl,
        matchSegs_lit _ _ _ (by decide), matchSegs_lit _ _ _ (by decide)]
      exact matchSegs_lit_ne _ _ _ _ (by decide) (fun h => hu h.symm)
    have h1 : matchTemplate "/users/{username}/songs" path = some [("username", u)] := by
      unfold matchTemplate
      rw [hseg,
        show pathSegments "/users/{username}/songs"
          = ["", "users", "{username}", "songs"] from rfl,
        matchSegs_lit _ _ _ (by decide), matchSegs_lit _ _ _ (by decide),
        matchSegs_param _ _ _ _ (by decide) hu, matchSegs_lit _ _ _ (by decide)]
      rfl
    simp only [dispatch, findRoute, create_api, h0, h1]
    rw [if_pos (by decide)]
  · intro path p hp hseg
    have h0 : matchTemplate "/users/" path = none := by
      unfold matchTemplate
      rw [hseg, show pathSegments "/users/" = ["", "users", ""] from rfl,
        matchSegs_lit _ _ _ (by decide)]
      exact matchSegs_lit_ne _ _ _ _ (by decide) (by decide)
    have h1 : matchTemplate "/users/{username}/songs" path = none := by
      unfold matchTemplate
      rw [hseg,
        show pathSegments "/users/{username}/songs"
          = ["", "users", "{username}", "songs"] from rfl,
        matchSegs_lit _ _ _ (by decide)]
      exact matchSegs_lit_ne _ _ _ _ (by decide) (by decide)
    have h2 : matchTemplate "/songs/{pk}" path = some [("pk", p)] := by
      unfold matchTemplate
      rw [hseg, show pathSegments "/songs/{pk}" = ["", "songs", "{pk}"] from rfl,
        matchSegs_lit _ _ _ (by decide), matchSegs_lit _ _ _ (by decide),
        matchSegs_param _ _ _ _ (by decide) hp]
      rfl
    simp only [dispatch, findRoute, create_api, h0, h1, h2]
    rw [if_pos (by decide)]
  · intro path t ht hseg
    have h0 : matchTemplate "/users/" path = none := by
      unfold matchTemplate
      rw [hseg, show pathSegments "/users/" = ["", "users", ""] from rfl,
        matchSegs_lit _ _ _ (by decide)]
      exact matchSegs_lit_ne _ _ _ _ (by decide) (by decide)
    have h1 : matchTemplate "/users/{username}/songs" path = none := by
      unfold matchTemplate
      rw [hseg,
        show pathSegments "/users/{username}/songs"
          = ["", "users", "{username}", "songs"] from rfl,
        matchSegs_lit _ _ _ (by decide)]
      exact matchSegs_lit_ne _ _ _ _ (by decide) (by decide)
    have h2 : matchTemplate "/songs/{pk}" path = none := by
      unfold matchTemplate
      rw [hseg, show pathSegments "/songs/{pk}" = ["", "songs", "{pk}"] from rfl,
        matchSegs_lit _ _ _ (by decide)]
      exact matchSegs_lit_ne _ _ _ _ (by decide) (by decide)
    have h3 : matchTemplate "/songs/" path = none := by
      unfold matchTemplate
      rw [hseg, show pathSegments "/songs/" = ["", "songs", ""] from rfl,
        matchSegs_lit _ _ _ (by decide)]
      exact matchSegs_lit_ne _ _ _ _ (by decide) (by decide)
    have h4 : matchTemplate "/tokens/{token}" path = some [("token", t)] := by
      unfold matchTemplate
      rw [hseg, show pathSegments "/tokens/{token}" = ["", "tokens", "{token}"] from rfl,
        matchSegs_lit _ _ _ (by decide), matchSegs_lit _ _ _ (by decide),
        matchSegs_param _ _ _ _ (by decide) ht]
      rfl
    simp only [dispatch, findRoute, create_api, h0, h1, h2, h3, h4]
    rw [if_pos (by decide)]

/-- Witness for C3: the parameter-extraction conjuncts applied at the
concrete paths /users/alice/songs, /songs/7 and /tokens/t1. -/
theorem C3_routing_table_and_dispatch_witness :
    dispatch (create_api 0 0) .get "/users/alice/songs"
      = .matched "/users/{username}/songs" ⟨.UserSongsResource, 0, 1⟩
          [("username", "alice")]
    ∧ dispatch (create_api 0 0) .get "/songs/7"
      = .matched "/songs/{pk}" ⟨.SongResource, 0, 2⟩ [("pk", "7")]
    ∧ dispatch (create_api 0 0) .get "/tokens/t1"
      = .matched "/tokens/{token}" ⟨.TokenResource, 0, 4⟩ [("token", "t1")] :=
  ⟨(C3_routing_table_and_dispatch 0 0).2.2.1 "/users/alice/songs" "alice"
      (by decide) (by decide),
   (C3_routing_table_and_dispatch 0 0).2.2.2.1 "/songs/7" "7" (by decide) (by decide),
   (C3_routing_table_and_dispatch 0 0).2.2.2.2 "/tokens/t1" "t1" (by decide) (by decide)⟩

/-- C4: `GET /users/{username}/songs` returns a not-found failure whenever
the username is absent from the user collection — it does not degenerate
to an empty sequence — and a success carrying the empty sequence for an
existing user that owns no songs. -/
theorem C4_user_songs_not_found_or_empty (db : Database) (u : String) :
    (user_exists db u = false → on_get_user_songs db u = .error 404)
    ∧ (user_exists db u = true → (∀ s ∈ db.songs, s.owner ≠ u) →
        on_get_user_songs db u = .ok []) := by
  constructor
  · intro h
    simp [on_get_user_songs, find_songs_by_owner, h]
  · intro h hs
    simp [on_get_user_songs, find_songs_by_owner, h, List.filter_eq_nil_iff]
    intro s hsmem
    simpa using hs s hsmem

/-- Witness for C4: an unknown user yields 404 on a concrete database,
and a present user with no songs yields the empty sequence. -/
theorem C4_user_songs_not_found_or_empty_witness :
    on_get_user_songs ⟨[⟨"alice"⟩], [], []⟩ "bob" = .error 404
    ∧ on_get_user_songs ⟨[⟨"alice"⟩], [], []⟩ "alice" = .ok [] :=
  ⟨(C4_user_songs_not_found_or_empty ⟨[⟨"alice"⟩], [], []⟩ "bob").1 (by decide),
   (C4_user_songs_not_found_or_empty ⟨[⟨"alice"⟩], [], []⟩ "alice").2 (by decide)
     (by simp)⟩

/-- C5: a token created through the token collection endpoint with a
fresh generated value is resolved by `GET /tokens/{token}` at exactly
that value to a record equal to the one returned at creation, and every
token string not equal to any stored token's value yields a not-found
failure. -/
theorem C5_token_roundtrip (db : Database) (subject generated : String)
    (hfresh : generated ∉ token_values db) :
    (on_get_token (create_token db subject generated).2
        (create_token db subject generated).1.token
      = .ok (create_token db subject generated).1)
    ∧ (∀ s, s ∉ token_values (create_token db subject generated).2 →
        on_get_token (create_token db subject generated).2 s = .error 404) := by
  constructor
  · have hnone : db.tokens.find? (fun tk => tk.token == generated) = none := by
      rw [List.find?_eq_none]
      intro x hx
      simp only [beq_iff_eq]
      intro hxe
      exact hfresh (hxe ▸ List.mem_map_of_mem Token.token hx)
    simp [on_get_token, find_token, create_token, List.find?_append, hnone]
  · intro s hs
    have hnone : ((create_token db subject generated).2).tokens.find?
        (fun tk => tk.token == s) = none := by
      rw [List.find?_eq_none]
      intro x hx
      simp only [beq_iff_eq]
      intro hxe
      exact hs (hxe ▸ List.mem_map_of_mem Token.token hx)
    simp [on_get_token, find_token, hnone]

/-- Witness for C5: on the empty database, creating a token with value t1
for alice makes `GET /tokens/t1` return that record and `GET /tokens/t2`
a not-found failure. -/
theorem C5_token_roundtrip_witness :
    on_get_token (create_token ⟨[], [], []⟩ "alice" "t1").2
        (create_token ⟨[], [], []⟩ "alice" "t1").1.token
      = .ok (create_token ⟨[], [], []⟩ "alice" "t1").1
    ∧ on_get_token (create_token ⟨[], [], []⟩ "alice" "t1").2 "t2" = .error 404 :=
  ⟨(C5_token_roundtrip ⟨[], [], []⟩ "alice" "t1" (by decide)).1,
   (C5_token_roundtrip ⟨[], [], []⟩ "alice" "t1" (by decide)).2 "t2" (by decide)⟩

/-- C6: the routing table of `create_api` contains no `/users/{username}`
template, and any request whose path has the single-user shape — three
segments, the middle one `users`, the last one a non-empty segment — is
dispatched to not-found whatever the method, so individual user lookup
is not directly reachable. -/
theorem C6_no_single_user_route (db : α) (base : Nat) :
    "/users/{username}" ∉ (create_api db base).routes.map Prod.fst
    ∧ (∀ (m : Method) (path u : String), ¬ u = "" →
        pathSegments path = ["", "users", u] →
        dispatch (create_api db base) m path = .notFound) := by
  constructor
  · simp [create_api]
  · intro m path u hu hseg
    have h0 : matchTemplate "/users/" path = none := by
      unfold matchTemplate
      rw [hseg, show pathSegments "/users/" = ["", "users", ""] from rfl,
        matchSegs_lit _ _ _ (by decide), matchSegs_lit _ _ _ (by decide)]
      exact matchSegs_lit_ne _ _ _ _ (by decide) (fun h => hu h.symm)
    have h1 : matchTemplate "/users/{username}/songs" path = none := by
      unfold matchTemplate
      rw [hseg,
        show pathSegments "/users/{username}/songs"
          = ["", "users", "{username}", "songs"] from rfl,
        matchSegs_lit _ _ _ (by decide), matchSegs_lit _ _ _ (by decide),
        matchSegs_param _ _ _ _ (by decide) hu]
      rfl
    have h2 : matchTemplate "/songs/{pk}" path = none := by
      unfold matchTemplate
      rw [hseg, show pathSegments "/songs/{pk}" = ["", "songs", "{pk}"] from rfl,
        matchSegs_lit _ _ _ (by decide)]
      exact matchSegs_lit_ne _ _ _ _ (by decide) (by decide)
    have h3 : matchTemplate "/songs/" path = none := by
      unfold matchTemplate
      rw [hseg, show pathSegments "/songs/" = ["", "songs", ""] from rfl,
        matchSegs_lit _ _ _ (by decide)]
      exact matchSegs_lit_ne _ _ _ _ (by decide) (by decide)
    have h4 : matchTemplate "/tokens/{token}" path = none := by
      unfold matchTemplate
      rw [hseg, show pathSegments "/tokens/{token}" = ["", "tokens", "{token}"] from rfl,
        matchSegs_lit _ _ _ (by decide)]
      exact matchSegs_lit_ne _ _ _ _ (by decide) (by decide)
    have h5 : matchTemplate "/tokens/" path = none := by
      unfold matchTemplate
      rw [hseg, show pathSegments "/tokens/" = ["", "tokens", ""] from rfl,
        matchSegs_lit _ _ _ (by decide)]
      exact matchSegs_lit_ne _ _ _ _ (by decide) (by decide)
    simp only [dispatch, findRoute, create_api, h0, h1, h2, h3, h4, h5]

/-- Witness for C6: `GET /users/alice` on the concrete API is dispatched
to not-found. -/
theorem C6_no_single_user_route_witness :
    dispatch (create_api 0 0) .get "/users/alice" = .notFound :=
  (C6_no_single_user_route 0 0).2 .get "/users/alice" "alice" (by decide) (by decide)

/-- C7: requests whose path matches no registered template are answered
with a 404 not-found, and requests whose path matches a template whose
resource does not support the method are answered with a 405
method-not-allowed; in both cases the response is produced by the
routing layer alone — it is the same whatever handler any resource
would run, since no handler is invoked. -/
theorem C7_routing_failures (db : α) (base : Nat) (req : Request) :
    (findRoute (create_api db base).routes req.path = none →
      (∀ h1 h2 : ResourceInstance α → List (String × String) → Response,
          handle (create_api db base) h1 req = handle (create_api db base) h2 req)
      ∧ ∀ h : ResourceInstance α → List (String × String) → Response,
          (handle (create_api db base) h req).status = 404)
    ∧ (∀ t r ps, findRoute (create_api db base).routes req.path = some (t, r, ps) →
        req.method ∉ allowedMethods t →
        (∀ h1 h2 : ResourceInstance α → List (String × String) → Response,
            handle (create_api db base) h1 req = handle (create_api db base) h2 req)
        ∧ ∀ h : ResourceInstance α → List (String × String) → Response,
            (handle (create_api db base) h req).status = 405) := by
  constructor
  · intro hf
    have hd : dispatch (create_api db base) req.method req.path = .notFound := by
      simp [dispatch, hf]
    exact ⟨fun h1 h2 => by simp [handle, hd],
      fun h => by simp [handle, hd, runMiddleware_status]⟩
  · intro t r ps hf hm
    have hd : dispatch (create_api db base) req.method req.path = .methodNotAllowed := by
      simp [dispatch, hf, hm]
    exact ⟨fun h1 h2 => by simp [handle, hd],
      fun h => by simp [handle, hd, runMiddleware_status]⟩

/-- Witness for C7: on the concrete API, `GET /nope` matches nothing and
is answered 404 identically under two different handlers, and
`PUT /users/` matches the user collection route but the method is
unsupported, so it is answered 405. -/
theorem C7_routing_failures_witness :
    (handle (create_api 0 0) (fun _ _ => ⟨200, []⟩) ⟨.get, "/nope", ""⟩
      = handle (create_api 0 0) (fun _ _ => ⟨201, []⟩) ⟨.get, "/nope", ""⟩)
    ∧ (handle (create_api 0 0) (fun _ _ => ⟨200, []⟩) ⟨.get, "/nope", ""⟩).status = 404
    ∧ (handle (create_api 0 0) (fun _ _ => ⟨200, []⟩) ⟨.put, "/users/", ""⟩).status = 405 :=
  ⟨((C7_routing_failures 0 0 ⟨.get, "/nope", ""⟩).1 (by decide)).1 _ _,
   ((C7_routing_failures 0 0 ⟨.get, "/nope", ""⟩).1 (by decide)).2 _,
   ((C7_routing_failures 0 0 ⟨.put, "/users/", ""⟩).2 "/users/"
      ⟨.UserResource, 0, 0⟩ [] (by decide) (by decide)).2 _⟩

/-- C8: every resource instance registered on the API built by
`create_api` was constructed with the very database object handed to
`create_api`, so all handlers consult the one shared gateway. -/
theorem C8_resources_share_db (db : α) (base : Nat) :
    ∀ r ∈ (create_api db base).routes, r.2.db = db := by
  simp [create_api]

/-- Witness for C8: the instance bound to /users/ on the API built over
database 7 indeed holds database 7. -/
theorem C8_resources_share_db_witness :
    (("/users/", (⟨.UserResource, 7, 0⟩ : ResourceInstance Nat)) :
        String × ResourceInstance Nat).2.db = 7 :=
  C8_resources_share_db 7 0 ("/users/", ⟨.UserResource, 7, 0⟩) (by decide)

/-- C9: constructing the API performs no database operation: running the
traced transcription of `create_api` on any database with an empty
operation log returns the same API as the pure transcription, leaves the
database state exactly as it was, and the log is still empty — the body
only allocates resources that store the database. -/
theorem C9_create_api_no_db_effects (db : Database) (dbid base : Nat) :
    (create_api_m dbid base).run (db, []) = (create_api dbid base, (db, [])) := rfl

/-- C10: `create_api` is deterministic and shares nothing across calls:
two calls over the same database produce identical template-to-class
bindings and identical middleware; every registered instance holds the
injected database; and when the two calls draw from disjoint allocation
ranges, no resource instance of the one is an instance of the other —
each call constructs fresh instances. -/
theorem C10_create_api_deterministic_fresh (db : α) (b1 b2 : Nat) :
    ((create_api db b1).routes.map (fun r => (r.1, r.2.rclass))
      = (create_api db b2).routes.map (fun r => (r.1, r.2.rclass)))
    ∧ (create_api db b1).middleware = (create_api db b2).middleware
    ∧ (∀ r ∈ (create_api db b1).routes, r.2.db = db)
    ∧ (b1 + 5 ≤ b2 →
        ∀ r1 ∈ (create_api db b1).routes, ∀ r2 ∈ (create_api db b2).routes,
          r1.2.iid ≠ r2.2.iid) := by
  refine ⟨rfl, rfl, ?_, ?_⟩
  · simp [create_api]
  · intro h r1 h1 r2 h2
    simp [create_api] at h1 h2
    rcases h1 with h1 | h1 | h1 | h1 | h1 | h1 <;>
      rcases h2 with h2 | h2 | h2 | h2 | h2 | h2 <;>
        subst h1 <;> subst h2 <;> simp <;> omega

/-- Witness for C10: the freshness conjunct applied to the two calls with
allocation bases 0 and 5 over database 3 — the /users/ instances of the
two APIs are distinct objects. -/
theorem C10_create_api_deterministic_fresh_witness :
    (⟨.UserResource, 3, 0⟩ : ResourceInstance Nat).iid
      ≠ (⟨.UserResource, 3, 5⟩ : ResourceInstance Nat).iid :=
  (C10_create_api_deterministic_fresh 3 0 5).2.2.2 (by decide)
    ("/users/", ⟨.UserResource, 3, 0⟩) (by decide)
    ("/users/", ⟨.UserResource, 3, 5⟩) (by decide)

end Polyphona
